import Mathlib

/-!
Shallow embedding of the eassistant conversational graph
(src/eassistant/graph/{state,nodes,builder}.py, services/storage.py,
utils/files.py) and proofs about its per-turn behaviour.

External effects (LLM calls, console input, file system, object storage,
wall clock) are modelled by an explicit environment record of injected
functions; each graph node from nodes.py becomes a Lean function on the
embedded state. Python truthiness of optional strings (None or "" is
falsy) is modelled by comparing `Option.getD ""` with `""`; truthiness of
the optional draft list by non-emptiness.
-/

namespace EAssistant

/-- Python `str.strip` whitespace set, restricted to the ASCII whitespace
characters (space, tab, newline, carriage return, vertical tab, form
feed); the source never manipulates non-ASCII whitespace. -/
def isPySpace (c : Char) : Bool :=
  c = ' ' || c = '\t' || c = '\n' || c = '\r' || c = '\x0b' || c = '\x0c'

/-- Model of Python `str.strip()`: remove leading and trailing whitespace. -/
def pyStrip (s : String) : String :=
  let cs := s.toList.dropWhile isPySpace
  String.mk (cs.reverse.dropWhile isPySpace).reverse

/-- ASCII lowercasing, `str.lower()` for the ASCII range (the source
never lowercases non-ASCII text on the paths modelled here). -/
def strLower (s : String) : String :=
  String.mk (s.toList.map Char.toLower)

/-- Model of Python `str.split()` (no arguments): split on whitespace runs,
dropping empty pieces. -/
def pySplitWs (s : String) : List String :=
  ((s.toList.splitOnP isPySpace).filter (fun p => p ≠ [])).map String.mk

/-- Model of Python `s.split(maxsplit=1)[1]` for a string `s` with no
leading whitespace and at least two whitespace-separated tokens: drop the
first token and the whitespace run after it. -/
def pySplitMax1Rest (s : String) : String :=
  String.mk ((s.toList.dropWhile (fun c => ¬ isPySpace c)).dropWhile isPySpace)

/-- Model of `pathlib.PurePosixPath(p).name`: the last path component,
ignoring empty components and single-dot components (pathlib normalizes
both away). -/
def pathName (p : String) : String :=
  String.mk
    (((p.toList.splitOnP (fun c => c = '/')).filter
        (fun c => c ≠ [] && c ≠ ['.'])).getLastD [])

/-- Model of `pathlib.PurePosixPath(p).suffix`: the extension of the final
component, i.e. the segment from the last dot, provided that dot is
neither the first nor the last character of the name. -/
def pathSuffix (p : String) : String :=
  let cs := (pathName p).toList
  match cs.reverse.findIdx? (fun c => c = '.') with
  | none => ""
  | some k =>
      let i := cs.length - 1 - k
      if 0 < i && 0 < k then String.mk (cs.drop i) else ""

/-- `ExtractedEntities` from state.py: structured info extracted from an
email; every field optional. -/
structure ExtractedEntities where
  sender_name : Option String
  sender_contact : Option String
  receiver_name : Option String
  receiver_contact : Option String
  subject : Option String
deriving Repr, DecidableEq

/-- `Draft` from state.py: a single draft of a reply. -/
structure Draft where
  content : String
  tone : String
deriving Repr, DecidableEq

/-- `GraphState` from state.py. Optional fields are `Option`; a key absent
from the Python dict and a key stored as `None` are both `none` (the code
only reads fields through `state.get`, which identifies the two). The
session id (a UUID in the source) is modelled as an opaque `Nat`; a UUID
object is always truthy in Python, so presence coincides with truthiness. -/
structure GraphState where
  session_id : Option Nat
  user_input : Option String
  intent : Option String
  original_email : Option String
  email_path : Option String
  key_info : Option ExtractedEntities
  summary : Option String
  draft_history : Option (List Draft)
  current_tone : Option String
  user_feedback : Option String
  error_message : Option String
  save_target : Option String
  conversation_summary : Option String
deriving Repr, DecidableEq

/-- Python truthiness of `draft_history`: a list that is present and
non-empty. -/
def dhNonempty (dh : Option (List Draft)) : Bool :=
  match dh with
  | none => false
  | some l => l ≠ []

/-- Length of the draft history, an absent history counting as empty. -/
def dhLen (s : GraphState) : Nat :=
  (s.draft_history.getD []).length

/-- Python `x or "default"` for an optional string `x` (falsy when `None`
or empty). -/
def pyOrStr (o : Option String) (d : String) : String :=
  if o.getD "" = "" then d else o.getD ""

/-- The arguments of one `StorageService.save` call
(services/storage.py): `save(content, file_path, target="local",
s3_bucket=None)`. -/
structure StorageCall where
  content : String
  file_path : String
  target : String
  s3_bucket : Option String
deriving Repr, DecidableEq

/-- The effect `StorageService.save` performs for a given call. -/
inductive StorageAction where
  /-- `raise ValueError("s3_bucket must be provided for S3 target.")` -/
  | s3BucketMissing : StorageAction
  /-- `s3_client.put_object(Bucket=bucket, Key=key, Body=body)` -/
  | s3Put (bucket key body : String) : StorageAction
  /-- `Path(file_path).write_text(content)` (after `mkdir -p` of parent) -/
  | localWrite (path content : String) : StorageAction
deriving Repr, DecidableEq

/-- `StorageService.save` from services/storage.py, as the storage action
it performs for the given arguments. -/
def StorageService.save (call : StorageCall) : StorageAction :=
  if call.target = "s3" then
    match call.s3_bucket with
    | none => .s3BucketMissing
    | some bucket =>
        let s3_key :=
          if ¬ call.file_path.contains '/' && ¬ call.file_path.contains '\\' then
            "outputs/" ++ call.file_path
          else call.file_path
        .s3Put bucket s3_key call.content
  else .localWrite call.file_path call.content

/-- The injected external world: LLM backend, JSON decoding of LLM
replies, console input, file system, PDF extraction, storage backend and
clock. `Except.error` models a raised Python exception carrying the
message the node interpolates into its error string. -/
structure Env where
  /-- `llm_service.invoke`; error = any raised exception, as its message. -/
  llm : String → Except String String
  /-- `json.loads(t).get("intent", "unclear")` in route_action; error =
  decode failure (JSONDecodeError or similar), ok = the classified intent
  string, with the `"unclear"` default already applied for a missing key. -/
  decodeIntent : String → Except String String
  /-- `json.loads(t)` plus the six `response_json.get(...)` reads in
  extract_and_summarize; `Except.error none` = `json.JSONDecodeError`,
  `Except.error (some m)` = any other exception with message `m`. -/
  decodeEntities : String → Except (Option String) (ExtractedEntities × Option String)
  /-- `console.input` in ask_for_tone; error = KeyboardInterrupt/EOFError. -/
  toneInput : Except Unit String
  /-- `Path(p).is_file()`. -/
  fileExists : String → Bool
  /-- `extract_text_from_pdf` (utils/files.py); error = the `ValueError`
  message `"Could not read PDF file at <path>"`. -/
  extractPdf : String → Except String String
  /-- `storage_service.save`; error = any raised exception, as its message. -/
  storageSave : StorageCall → Except String Unit
  /-- `datetime.now().strftime("%Y%m%d-%H%M%S")`. -/
  now : String

/-- The classification prompt built by `route_action` (nodes.py): the
context block plus the instruction block, with the user input, running
conversation summary, draft presence and latest draft content
interpolated exactly where the source interpolates them (the surrounding
indentation whitespace of the Python triple-quoted literals is elided;
the prompt is only ever passed opaquely to the LLM port). -/
def routePromptText (user_input conversation_summary : String)
    (draft_history : Option (List Draft)) : String :=
  let context :=
    "You are an AI assistant helping a user draft emails.\n" ++
    "The user\x27s latest input is: \"" ++ user_input ++ "\"\n\n" ++
    "Conversation Summary:\n---\n" ++
    (if conversation_summary ≠ "" then conversation_summary
     else "No summary yet.") ++
    "\n---\n\nCurrent State:\n- Is there a draft in progress? " ++
    (if dhNonempty draft_history then "Yes" else "No") ++
    "\n- Latest draft content (if any):\n  " ++
    (match draft_history with
     | some (d :: ds) => ((d :: ds).getLastD d).content
     | _ => "N/A")
  "Based on the provided context and user input, classify the user\x27s\n" ++
  "primary intent into ONE of the following categories:\n" ++
  "- process_new_email - refine_draft - show_info - save_draft\n" ++
  "- reset_session - handle_idle_chat - unclear\n\n" ++
  "Context:\n" ++ context ++ "\n\nUser Input: \"" ++ user_input ++ "\"\n\n" ++
  "Return a single JSON object with the key \"intent\" and the determined\n" ++
  "category. For example: \x7b\"intent\": \"refine_draft\"\x7d"

/-- `llm_service.invoke` followed by `json.loads(...).get("intent",
"unclear")`, the two fallible operations inside route_action's `try`
block; the error carries the exception message interpolated into
`"Error during intent routing: {e}"`. -/
def routeClassify (env : Env) (p : String) : Except String String :=
  match env.llm p with
  | .error e => .error e
  | .ok t => env.decodeIntent t

/-- `route_action` from nodes.py. The second component records the
prompts sent to the LLM port during the call (empty = no generation
call). -/
def route_action (env : Env) (state : GraphState) :
    GraphState × List String :=
  let user_input := pyStrip (state.user_input.getD "")
  let conversation_summary := state.conversation_summary.getD ""
  if user_input = "" then
    ({ state with intent := some "unclear" }, [])
  else
    let prompt := routePromptText user_input conversation_summary
      state.draft_history
    match routeClassify env prompt with
    | .error e =>
        ({ state with
            intent := some "unclear",
            error_message :=
              some ("Error during intent routing: " ++ e) }, [prompt])
    | .ok intent =>
        let state1 :=
          if intent = "process_new_email" then
            { state with original_email := some user_input }
          else if intent = "refine_draft" then
            { state with user_feedback := some user_input }
          else state
        let new_summary_entry :=
          "User said: \x27" ++ user_input ++
          "\x27 -> AI classified intent as: \x27" ++ intent ++ "\x27"
        let updated_summary :=
          if conversation_summary ≠ "" then
            conversation_summary ++ "\n- " ++ new_summary_entry
          else "- " ++ new_summary_entry
        ({ state1 with
            intent := some intent,
            conversation_summary := some updated_summary }, [prompt])

/-- The `load <filename>` command handling of parse_input: when the
trimmed input starts (case-insensitively) with `"load "` and has at least
two whitespace tokens, the candidate path is everything after the first
token; otherwise the whole trimmed input. -/
def loadCandidate (user_input : String) : String :=
  if ("load ".toList).isPrefixOf (user_input.toList.map Char.toLower) &&
      (pySplitWs user_input).length > 1 then
    pySplitMax1Rest user_input
  else user_input

/-- The path heuristic of parse_input combined with its extension test:
`is_potential_path` (contains a period and no space character) and a
case-insensitive `.pdf` suffix. -/
def isPdfPathCandidate (potential_path : String) : Bool :=
  (potential_path.toList.contains '.' &&
      ¬ potential_path.toList.contains ' ') &&
    strLower (pathSuffix potential_path) = ".pdf"

/-- `parse_input` from nodes.py. `email_path` is set to
`str(Path(potential_path))`, which round-trips to `potential_path`
itself for candidates without redundant separators or dot components
(path candidates contain no space, and pathlib only normalizes
separators); the embedding uses the candidate string directly. -/
def parse_input (env : Env) (state : GraphState) : GraphState :=
  let user_input := pyStrip (state.original_email.getD "")
  if user_input = "" then
    { state with error_message := some "Input email cannot be empty." }
  else
    let state1 := { state with original_email := some user_input }
    let potential_path := loadCandidate user_input
    if isPdfPathCandidate potential_path then
      if ¬ env.fileExists potential_path then
        { state1 with
            error_message := some ("File not found: " ++ potential_path) }
      else
        match env.extractPdf potential_path with
        | .ok text =>
            { state1 with
                original_email := some text,
                email_path := some potential_path }
        | .error e => { state1 with error_message := some e }
    else state1

/-- The extraction prompt of `extract_and_summarize` (nodes.py), with the
email content interpolated (fixed instruction text elided to its head;
the prompt is only ever passed opaquely to the LLM port). -/
def extractPromptText (email_content : String) : String :=
  "Analyze the following email and extract the following information:\n" ++
  "... Email content:\n---\n" ++ email_content ++ "\n---"

/-- `extract_and_summarize` from nodes.py. A raised LLM exception is
caught by the generic `except Exception` branch; a JSON decode failure by
the `except json.JSONDecodeError` branch. -/
def extract_and_summarize (env : Env) (state : GraphState) : GraphState :=
  let email_content := state.original_email.getD ""
  if email_content = "" then
    { state with error_message := some "No email content to process." }
  else
    match env.llm (extractPromptText email_content) with
    | .error e =>
        { state with
            error_message := some ("An unexpected error occurred: " ++ e) }
    | .ok response_text =>
        match env.decodeEntities response_text with
        | .error none =>
            { state with
                error_message := some "Failed to parse LLM response as JSON." }
        | .error (some m) =>
            { state with
                error_message := some ("An unexpected error occurred: " ++ m) }
        | .ok (entities, summ) =>
            { state with key_info := some entities, summary := summ }

/-- `ask_for_tone` from nodes.py (the rich-console rendering of the
panels is display-only and not part of the state transformation). -/
def ask_for_tone (env : Env) (state : GraphState) : GraphState :=
  match env.toneInput with
  | .ok tone =>
      { state with
          current_tone :=
            some (if pyStrip tone ≠ "" then pyStrip tone
              else "professional") }
  | .error _ =>
      { state with
          error_message := some "User cancelled the operation.",
          current_tone := some "professional" }

/-- The drafting prompt of `generate_initial_draft` (nodes.py), with
summary, entities and tone interpolated (a Python f-string renders a
`None` field as the text "None"). -/
def initialDraftPromptText (summary tone : String)
    (entities : ExtractedEntities) : String :=
  "Based on the following summary and extracted entities from an email,\n" ++
  "write a helpful reply with a \"" ++ tone ++ "\" tone.\n\n" ++
  "Summary:\n---\n" ++ summary ++ "\n---\n\nSender: " ++
  entities.sender_name.getD "None" ++ " (" ++
  entities.sender_contact.getD "None" ++ ")\nReceiver: " ++
  entities.receiver_name.getD "None" ++ " (" ++
  entities.receiver_contact.getD "None" ++ ")\n\nSubject: " ++
  entities.subject.getD "None" ++ "\n\nDraft the email reply below:"

/-- `generate_initial_draft` from nodes.py. -/
def generate_initial_draft (env : Env) (state : GraphState) : GraphState :=
  let summary := state.summary
  let tone := pyOrStr state.current_tone "professional"
  match state.key_info with
  | none =>
      { state with
          error_message :=
            some "Missing summary or entities to generate a draft." }
  | some entities =>
      if summary.getD "" = "" then
        { state with
            error_message :=
              some "Missing summary or entities to generate a draft." }
      else
        match env.llm (initialDraftPromptText (summary.getD "") tone
            entities) with
        | .ok draft_content =>
            let new_draft : Draft :=
              { content := draft_content,
                tone := pyOrStr state.current_tone "professional" }
            { state with
                draft_history :=
                  some (state.draft_history.getD [] ++ [new_draft]) }
        | .error e =>
            { state with
                error_message := some ("Failed to generate draft: " ++ e) }

/-- The refinement prompt of `refine_draft` (nodes.py), with the latest
draft, the feedback and the tone interpolated. -/
def refinePromptText (latest_draft user_feedback current_tone : String) :
    String :=
  "A user wants to refine an email draft.\n\nOriginal Draft:\n---\n" ++
  latest_draft ++ "\n---\n\nUser Feedback:\n---\n" ++ user_feedback ++
  "\n---\n\nCurrent Tone: " ++ current_tone ++
  "\n\nPlease generate a new version of the draft that incorporates the " ++
  "user\x27s feedback and maintains the specified tone."

/-- `refine_draft` from nodes.py. -/
def refine_draft (env : Env) (state : GraphState) : GraphState :=
  let current_tone := pyOrStr state.current_tone "professional"
  if ¬ dhNonempty state.draft_history then
    { state with error_message := some "No draft to refine." }
  else if state.user_feedback.getD "" = "" then
    { state with
        error_message :=
          some "No user feedback provided to refine the draft." }
  else
    let latest_draft :=
      ((state.draft_history.getD []).getLastD ⟨"", ""⟩).content
    match env.llm (refinePromptText latest_draft
        (state.user_feedback.getD "") current_tone) with
    | .ok refined_content =>
        { state with
            draft_history :=
              some (state.draft_history.getD [] ++
                [{ content := refined_content, tone := current_tone }]),
            user_feedback := none }
    | .error e =>
        { state with
            error_message := some ("Failed to refine draft: " ++ e) }

/-- `save_draft` from nodes.py. The second component records the
`StorageService.save` call made, if any: the node passes only `content`
and `file_path`, so `target` takes the Python default `"local"` and
`s3_bucket` the default `None`. `str(Path("outputs") / filename)` is the
POSIX join `"outputs/" ++ filename`. -/
def save_draft (env : Env) (state : GraphState) :
    GraphState × Option StorageCall :=
  if ¬ dhNonempty state.draft_history then
    ({ state with error_message := some "No draft to save." }, none)
  else
    let latest_draft :=
      ((state.draft_history.getD []).getLastD ⟨"", ""⟩).content
    let filename := "draft-" ++ env.now ++ ".txt"
    let output_path := "outputs/" ++ filename
    let call : StorageCall :=
      { content := latest_draft, file_path := output_path,
        target := "local", s3_bucket := none }
    match env.storageSave call with
    | .ok _ => (state, some call)
    | .error e =>
        ({ state with
            error_message := some ("Failed to save draft: " ++ e) },
         some call)

/-- `handle_error` from nodes.py: print the message and clear it (only
when truthy). -/
def handle_error (state : GraphState) : GraphState :=
  if state.error_message.getD "" ≠ "" then
    { state with error_message := none }
  else state

/-- `show_info` from nodes.py: rendering only, the state is returned
unchanged on both branches. -/
def show_info (state : GraphState) : GraphState :=
  state

/-- `reset_session` from nodes.py. Raises `ValueError` when the session
id is absent. The rebuilt dict the node returns lists every GraphState
key except `save_target`; LangGraph merges a node's returned mapping into
the state key by key, so `save_target` keeps its previous value. -/
def reset_session (state : GraphState) : Except String GraphState :=
  match state.session_id with
  | none => .error "Session ID is missing and cannot be reset."
  | some session_id =>
      .ok { session_id := some session_id,
            user_input := none,
            original_email := none,
            email_path := none,
            key_info := none,
            summary := none,
            draft_history := some [],
            current_tone := some "professional",
            user_feedback := none,
            error_message := none,
            intent := none,
            conversation_summary := none,
            save_target := state.save_target }

/-- `handle_unclear` from nodes.py: print the help text and set intent. -/
def handle_unclear (state : GraphState) : GraphState :=
  { state with intent := some "unclear" }

/-- `handle_idle_chat` from nodes.py: print only, no state mutation. -/
def handle_idle_chat (state : GraphState) : GraphState :=
  state

/-- `check_for_errors` from builder.py, as the truthiness test it
performs (`True` routes to handle_error). -/
def check_for_errors (state : GraphState) : Bool :=
  state.error_message.getD "" ≠ ""

/-- `route_by_intent` from builder.py. -/
def route_by_intent (state : GraphState) : String :=
  match state.intent with
  | some "process_new_email" => "parse_input"
  | some "refine_draft" => "refine_draft"
  | some "show_info" => "show_info"
  | some "save_draft" => "save_draft"
  | some "reset_session" => "reset_session"
  | _ => "handle_unclear"

/-- The linear chain of builder.py starting at parse_input:
parse_input → extract_and_summarize → ask_for_tone →
generate_initial_draft → END, with a `check_for_errors` conditional edge
after every node that short-circuits to handle_error. -/
def runParseChain (env : Env) (s : GraphState) : GraphState :=
  let s := parse_input env s
  if check_for_errors s then handle_error s else
  let s := extract_and_summarize env s
  if check_for_errors s then handle_error s else
  let s := ask_for_tone env s
  if check_for_errors s then handle_error s else
  let s := generate_initial_draft env s
  if check_for_errors s then handle_error s else s

/-- One full graph traversal (one turn) of the compiled graph of
builder.py: entry at route_action, conditional dispatch by
route_by_intent, then the per-branch wiring (show_info, save_draft,
reset_session, handle_unclear and handle_error have a direct edge to
END). `Except.error` models the `ValueError` reset_session may raise
through the graph. -/
def run_turn (env : Env) (state : GraphState) : Except String GraphState :=
  let s := (route_action env state).1
  match route_by_intent s with
  | "parse_input" => .ok (runParseChain env s)
  | "refine_draft" =>
      let s2 := refine_draft env s
      .ok (if check_for_errors s2 then handle_error s2 else s2)
  | "show_info" => .ok (show_info s)
  | "save_draft" => .ok (save_draft env s).1
  | "reset_session" => reset_session s
  | _ => .ok (handle_unclear s)

/-! ## Concrete fixtures

A fresh per-session state (mirroring `get_initial_state` in cli.py with
a turn's input filled in) and small concrete environments, used by the
closed witness and counterexample theorems. -/

def stBase : GraphState :=
  { session_id := some 1, user_input := some "hello", intent := none,
    original_email := none, email_path := none, key_info := none,
    summary := none, draft_history := none, current_tone := none,
    user_feedback := none, error_message := none, save_target := none,
    conversation_summary := none }

/-- An environment whose LLM backend always raises. -/
def envStub : Env :=
  { llm := fun _ => .error "boom",
    decodeIntent := fun _ => .ok "unclear",
    decodeEntities := fun _ => .error none,
    toneInput := .ok "",
    fileExists := fun _ => false,
    extractPdf := fun _ => .error "bad pdf",
    storageSave := fun _ => .ok (),
    now := "20250101-000000" }

/-- An environment whose every external call succeeds and whose
classifier answers `process_new_email`. -/
def envProc : Env :=
  { llm := fun _ => .ok "D",
    decodeIntent := fun _ => .ok "process_new_email",
    decodeEntities := fun _ =>
      .ok ({ sender_name := some "A", sender_contact := some "a@x",
             receiver_name := some "B", receiver_contact := some "b@x",
             subject := some "Subj" }, some "S"),
    toneInput := .ok "friendly",
    fileExists := fun _ => false,
    extractPdf := fun _ => .error "bad pdf",
    storageSave := fun _ => .ok (),
    now := "20250101-000000" }

/-- An environment whose classifier answers `handle_idle_chat`. -/
def envIdle : Env :=
  { envStub with
    llm := fun _ => .ok "x",
    decodeIntent := fun _ => .ok "handle_idle_chat" }

/-! ## Helper lemmas -/

theorem pyStrip_eq_empty {s : String}
    (h : ∀ c ∈ s.toList, isPySpace c = true) : pyStrip s = "" := by
  unfold pyStrip
  have h1 : s.toList.dropWhile isPySpace = [] :=
    List.dropWhile_eq_nil_iff.mpr (fun x hx => h x hx)
  rw [h1]
  rfl

theorem check_for_errors_handle_error (s : GraphState) :
    check_for_errors (handle_error s) = false := by
  unfold handle_error check_for_errors
  split
  · rfl
  · next h => simpa using h

theorem runParseChain_no_error (env : Env) (s : GraphState) :
    check_for_errors (runParseChain env s) = false := by
  unfold runParseChain
  simp only []
  repeat' split
  any_goals exact check_for_errors_handle_error _
  next h => simpa using h

/-! ## C8: blank input short-circuits the router -/

/-- C8: for every turn whose userInput is empty or consists only of
whitespace, route_action sets intent = unclear and returns immediately:
the returned state differs from the input state only in `intent`, and no
prompt is sent to the Text-Generation Port (empty call list). -/
theorem route_action_blank_input (env : Env) (s : GraphState)
    (h : ∀ c ∈ (s.user_input.getD "").toList, isPySpace c = true) :
    route_action env s = ({ s with intent := some "unclear" }, []) := by
  have h0 : pyStrip (s.user_input.getD "") = "" := pyStrip_eq_empty h
  unfold route_action
  simp only [h0]
  rfl

def sBlankInput : GraphState := { stBase with user_input := some "  \t " }

/-- Witness for C8 at the concrete whitespace-only input `"  \t "`. -/
theorem route_action_blank_input_witness :
    route_action envStub sBlankInput =
      ({ sBlankInput with intent := some "unclear" }, []) :=
  route_action_blank_input envStub sBlankInput (by decide)

/-! ## C9: reset_session raises exactly when the session id is missing -/

/-- C9: reset_session raises a `ValueError` that propagates out of the
graph if and only if `session_id` is missing from the state; with a
session id present it never raises. -/
theorem reset_session_raises_iff_missing (s : GraphState) :
    (s.session_id = none → ∃ e, reset_session s = Except.error e) ∧
    (∀ sid, s.session_id = some sid → ∃ t, reset_session s = Except.ok t) := by
  constructor
  · intro h
    exact ⟨"Session ID is missing and cannot be reset.",
      by simp [reset_session, h]⟩
  · intro sid h
    exact ⟨{ session_id := some sid, user_input := none,
             original_email := none, email_path := none, key_info := none,
             summary := none, draft_history := some [],
             current_tone := some "professional", user_feedback := none,
             error_message := none, intent := none,
             conversation_summary := none,
             save_target := s.save_target },
      by simp [reset_session, h]⟩

def stNoSid : GraphState := { stBase with session_id := none }

/-- Witness for C9: a state without a session id makes reset_session
raise; `stBase` (session id 1) makes it return normally. -/
theorem reset_session_raises_iff_missing_witness :
    (∃ e, reset_session stNoSid = Except.error e) ∧
    (∃ t, reset_session stBase = Except.ok t) :=
  ⟨(reset_session_raises_iff_missing stNoSid).1 rfl,
   (reset_session_raises_iff_missing stBase).2 1 rfl⟩

/-! ## C10: router failure touches only intent and errorMessage -/

/-- C10: when the router's generation call or the JSON decoding of its
response fails (a `routeClassify` error), route_action returns the input
state with only `intent` (set to unclear) and `errorMessage` modified;
in particular `conversationSummary`, `originalEmail` and `userFeedback`
are unchanged and no summary entry is appended. -/
theorem route_action_failure_isolation (env : Env) (s : GraphState)
    (e : String) (h : pyStrip (s.user_input.getD "") ≠ "")
    (hf : routeClassify env
        (routePromptText (pyStrip (s.user_input.getD ""))
          (s.conversation_summary.getD "") s.draft_history) =
      Except.error e) :
    (route_action env s).1 =
      { s with
          intent := some "unclear",
          error_message := some ("Error during intent routing: " ++ e) } := by
  unfold route_action
  simp only [h, hf, if_neg h]
  rfl

/-- Witness for C10: a backend that raises `"boom"` on the fresh state
with input `"hello"`. -/
theorem route_action_failure_isolation_witness :
    (route_action envStub stBase).1 =
      { stBase with
          intent := some "unclear",
          error_message :=
            some ("Error during intent routing: " ++ "boom") } :=
  route_action_failure_isolation envStub stBase "boom" (by decide) rfl

/-! ## C7: refine_draft error conditions and feedback consumption -/

theorem append_ne_of_head {p q : String} (e : String) (c d : Char)
    (hp : p.data.head? = some c) (hq : q.data.head? = some d)
    (hcd : c ≠ d) : p ++ e ≠ q := by
  intro he
  have h2 : (p ++ e).data = q.data := congrArg String.data he
  rw [String.data_append] at h2
  cases hp' : p.data with
  | nil => rw [hp'] at hp; simp at hp
  | cons x xs =>
      rw [hp'] at hp h2
      have hx : x = c := by simpa using hp
      have : q.data.head? = some x := by rw [← h2]; rfl
      rw [hq] at this
      exact hcd (hx ▸ (Option.some.inj this).symm)

theorem failed_refine_ne_no_draft (e : String) :
    "Failed to refine draft: " ++ e ≠ "No draft to refine." :=
  append_ne_of_head e 'F' 'N' rfl rfl (by decide)

theorem failed_refine_ne_no_feedback (e : String) :
    "Failed to refine draft: " ++ e ≠
      "No user feedback provided to refine the draft." :=
  append_ne_of_head e 'F' 'N' rfl rfl (by decide)

/-- C7: starting from a state with no pending error, refine_draft sets
errorMessage `"No draft to refine."` exactly when the draft history is
empty or absent, sets `"No user feedback provided to refine the draft."`
exactly when the history is non-empty but the feedback is empty or
absent, and on every successful refinement (LLM call returns) clears
`userFeedback` to null. -/
theorem refine_draft_error_spec (env : Env) (s : GraphState)
    (h : s.error_message = none) :
    ((refine_draft env s).error_message = some "No draft to refine." ↔
      dhNonempty s.draft_history = false) ∧
    ((refine_draft env s).error_message =
        some "No user feedback provided to refine the draft." ↔
      dhNonempty s.draft_history = true ∧ s.user_feedback.getD "" = "") ∧
    (∀ c, dhNonempty s.draft_history = true →
      s.user_feedback.getD "" ≠ "" →
      env.llm (refinePromptText
          ((s.draft_history.getD []).getLastD ⟨"", ""⟩).content
          (s.user_feedback.getD "")
          (pyOrStr s.current_tone "professional")) = Except.ok c →
      (refine_draft env s).user_feedback = none) := by
  unfold refine_draft
  simp only []
  split
  next h1 =>
    refine ⟨by simp_all, by simp_all, ?_⟩
    intro c hdh _ _
    exact absurd hdh h1
  next h1 =>
    split
    next h2 =>
      refine ⟨by simp_all, by simp_all, ?_⟩
      intro c _ hfb _
      exact absurd h2 hfb
    next h2 =>
      constructor
      · constructor
        · intro hmsg
          exfalso
          revert hmsg
          split
          · simp [h]
          · next e heq =>
              intro hmsg
              exact failed_refine_ne_no_draft e (Option.some.inj hmsg)
        · intro hfalse
          simp at h1
          rw [h1] at hfalse
          cases hfalse
      constructor
      · constructor
        · intro hmsg
          exfalso
          revert hmsg
          split
          · simp [h]
          · next e heq =>
              intro hmsg
              exact failed_refine_ne_no_feedback e (Option.some.inj hmsg)
        · rintro ⟨-, hfb⟩
          exact absurd hfb h2
      · intro c hdh hfb hllm
        rw [hllm]

def stOneDraft : GraphState :=
  { stBase with
    draft_history := some [⟨"D1", "professional"⟩],
    user_feedback := some "make it shorter" }

def envRefineOk : Env := { envStub with llm := fun _ => .ok "D2" }

/-- Witness for C7 at a state with one draft and pending feedback, under
a succeeding backend: the three conjuncts applied concretely. -/
theorem refine_draft_error_spec_witness :
    ((refine_draft envRefineOk stOneDraft).error_message =
        some "No draft to refine." ↔
      dhNonempty stOneDraft.draft_history = false) ∧
    (refine_draft envRefineOk stOneDraft).user_feedback = none :=
  ⟨(refine_draft_error_spec envRefineOk stOneDraft rfl).1,
   (refine_draft_error_spec envRefineOk stOneDraft rfl).2.2 "D2" rfl
     (by decide) rfl⟩

/-! ## C3: evolution of the draft history -/

/-- generate_initial_draft either only records an error or appends
exactly one draft (with the effective tone) to the history, creating the
list if absent. -/
theorem generate_initial_draft_cases (env : Env) (s : GraphState) :
    (∃ msg, generate_initial_draft env s =
      { s with error_message := some msg }) ∨
    (∃ c, generate_initial_draft env s =
      { s with
          draft_history := some (s.draft_history.getD [] ++
            [⟨c, pyOrStr s.current_tone "professional"⟩]) }) := by
  unfold generate_initial_draft
  simp only []
  repeat' split
  all_goals first
    | exact Or.inl ⟨_, rfl⟩
    | exact Or.inr ⟨_, rfl⟩

/-- refine_draft either only records an error or appends exactly one
draft and clears the feedback. -/
theorem refine_draft_cases (env : Env) (s : GraphState) :
    (∃ msg, refine_draft env s = { s with error_message := some msg }) ∨
    (∃ c, refine_draft env s =
      { s with
          draft_history := some (s.draft_history.getD [] ++
            [⟨c, pyOrStr s.current_tone "professional"⟩]),
          user_feedback := none }) := by
  unfold refine_draft
  simp only []
  repeat' split
  all_goals first
    | exact Or.inl ⟨_, rfl⟩
    | exact Or.inr ⟨_, rfl⟩

theorem route_action_preserves_dh (env : Env) (s : GraphState) :
    ((route_action env s).1).draft_history = s.draft_history := by
  unfold route_action
  simp only []
  repeat' split
  all_goals rfl

theorem parse_input_preserves_dh (env : Env) (s : GraphState) :
    (parse_input env s).draft_history = s.draft_history := by
  unfold parse_input
  simp only []
  repeat' split
  all_goals rfl

theorem extract_and_summarize_preserves_dh (env : Env) (s : GraphState) :
    (extract_and_summarize env s).draft_history = s.draft_history := by
  unfold extract_and_summarize
  simp only []
  repeat' split
  all_goals rfl

theorem ask_for_tone_preserves_dh (env : Env) (s : GraphState) :
    (ask_for_tone env s).draft_history = s.draft_history := by
  unfold ask_for_tone
  repeat' split
  all_goals rfl

theorem save_draft_preserves_dh (env : Env) (s : GraphState) :
    ((save_draft env s).1).draft_history = s.draft_history := by
  unfold save_draft
  simp only []
  repeat' split
  all_goals rfl

theorem handle_error_preserves_dh (s : GraphState) :
    (handle_error s).draft_history = s.draft_history := by
  unfold handle_error
  split
  all_goals rfl

/-- C3: a successful GenerateInitialDraft call (no pending error and
none recorded by the call) and a successful RefineDraft call each grow
`draftHistory` by exactly one (creating the sequence if absent); both
nodes never shrink it in any case; every other node leaves it untouched;
and a ResetSession that returns rebuilds it empty. -/
theorem draft_history_discipline (env : Env) (s : GraphState) :
    (s.error_message = none →
      (generate_initial_draft env s).error_message = none →
      dhLen (generate_initial_draft env s) = dhLen s + 1) ∧
    (s.error_message = none →
      (refine_draft env s).error_message = none →
      dhLen (refine_draft env s) = dhLen s + 1) ∧
    dhLen s ≤ dhLen (generate_initial_draft env s) ∧
    dhLen s ≤ dhLen (refine_draft env s) ∧
    ((route_action env s).1).draft_history = s.draft_history ∧
    (parse_input env s).draft_history = s.draft_history ∧
    (extract_and_summarize env s).draft_history = s.draft_history ∧
    (ask_for_tone env s).draft_history = s.draft_history ∧
    (show_info s).draft_history = s.draft_history ∧
    ((save_draft env s).1).draft_history = s.draft_history ∧
    (handle_unclear s).draft_history = s.draft_history ∧
    (handle_error s).draft_history = s.draft_history ∧
    (handle_idle_chat s).draft_history = s.draft_history ∧
    (∀ t, reset_session s = Except.ok t → dhLen t = 0) := by
  have hgen := generate_initial_draft_cases env s
  have href := refine_draft_cases env s
  refine ⟨?_, ?_, ?_, ?_, route_action_preserves_dh env s,
    parse_input_preserves_dh env s, extract_and_summarize_preserves_dh env s,
    ask_for_tone_preserves_dh env s, rfl, save_draft_preserves_dh env s, rfl,
    handle_error_preserves_dh s, rfl, ?_⟩
  · intro h1 h2
    rcases hgen with ⟨msg, heq⟩ | ⟨c, heq⟩
    · rw [heq] at h2; simp at h2
    · rw [heq]; simp [dhLen]
  · intro h1 h2
    rcases href with ⟨msg, heq⟩ | ⟨c, heq⟩
    · rw [heq] at h2; simp at h2
    · rw [heq]; simp [dhLen]
  · rcases hgen with ⟨msg, heq⟩ | ⟨c, heq⟩ <;> rw [heq] <;> simp [dhLen]
  · rcases href with ⟨msg, heq⟩ | ⟨c, heq⟩ <;> rw [heq] <;> simp [dhLen]
  · intro t ht
    unfold reset_session at ht
    cases h : s.session_id with
    | none => rw [h] at ht; cases ht
    | some sid =>
        rw [h] at ht
        cases ht
        simp [dhLen]

/-- Witness for C3: under the all-success environment, on a ready state
(summary and entities present), generate_initial_draft grows the history
from 0 to 1, and reset_session empties a one-draft history. -/
theorem draft_history_discipline_witness :
    dhLen (generate_initial_draft envProc
      { stBase with
          summary := some "S",
          key_info := some ⟨some "A", some "a@x", some "B", some "b@x",
            some "Subj"⟩ }) =
      dhLen { stBase with
          summary := some "S",
          key_info := some ⟨some "A", some "a@x", some "B", some "b@x",
            some "Subj"⟩ } + 1 :=
  (draft_history_discipline envProc _).1 rfl rfl

/-! ## C2: what reset_session actually rebuilds -/

def stSaveS3 : GraphState := { stBase with save_target := some "s3" }

/-- Counterexample to C2 as stated: on a state whose `saveTarget` is
`"s3"`, reset_session returns a state whose `saveTarget` is still `"s3"`
rather than null — the rebuilt dict in nodes.py lists every §3 field
except `save_target`, so under the graph's merge semantics the old value
survives. -/
theorem reset_session_save_target_counterexample :
    (reset_session stSaveS3).map GraphState.save_target =
        Except.ok (some "s3") ∧
      some "s3" ≠ (none : Option String) :=
  ⟨rfl, by decide⟩

/-- C2 (amended): with a session id present, reset_session returns a
state with the same `sessionId` and every other §3 field reset to its
initial shape — optional fields null, draftHistory empty, currentTone
`"professional"` — except `saveTarget`, which keeps its previous value. -/
theorem reset_session_resets_all_but_save_target (s : GraphState)
    (sid : Nat) (h : s.session_id = some sid) :
    reset_session s =
      Except.ok
        { session_id := some sid, user_input := none, intent := none,
          original_email := none, email_path := none, key_info := none,
          summary := none, draft_history := some [],
          current_tone := some "professional", user_feedback := none,
          error_message := none, save_target := s.save_target,
          conversation_summary := none } := by
  unfold reset_session
  rw [h]

/-- Witness for the amended C2 at a fully populated concrete state. -/
theorem reset_session_resets_all_but_save_target_witness :
    reset_session { stSaveS3 with
        original_email := some "mail", summary := some "S",
        draft_history := some [⟨"D", "casual"⟩], intent := some "reset_session",
        user_feedback := some "fb", error_message := some "err",
        conversation_summary := some "log" } =
      Except.ok
        { session_id := some 1, user_input := none, intent := none,
          original_email := none, email_path := none, key_info := none,
          summary := none, draft_history := some [],
          current_tone := some "professional", user_feedback := none,
          error_message := none, save_target := some "s3",
          conversation_summary := none } :=
  reset_session_resets_all_but_save_target _ 1 rfl

/-! ## C4: the storage call save_draft actually makes -/

def stS3Draft : GraphState :=
  { stBase with
    draft_history := some [⟨"D", "professional"⟩],
    save_target := some "s3" }

/-- Counterexample to C4 as stated: with `saveTarget = "s3"` (remote),
save_draft still calls the storage service with the default target
`"local"` and no bucket — the node passes only `content` and
`file_path`, never resolving the state's `saveTarget` and never sourcing
a bucket from configuration. -/
theorem save_draft_ignores_save_target_counterexample :
    (save_draft envStub stS3Draft).2 =
        some { content := "D",
               file_path := "outputs/draft-20250101-000000.txt",
               target := "local", s3_bucket := none } ∧
      stS3Draft.save_target = some "s3" ∧ "local" ≠ "s3" :=
  ⟨rfl, rfl, by decide⟩

/-- C4 (amended): whenever save_draft runs with a non-empty
draftHistory, it calls the Persistence Port with the latest draft's
content and the timestamp-derived filename under `outputs/`, always with
the port's default local target and no bucket parameter, regardless of
the state's `saveTarget`; the resulting storage action is a local
write. -/
theorem save_draft_call_spec (env : Env) (s : GraphState)
    (h : dhNonempty s.draft_history = true) :
    (save_draft env s).2 =
        some { content := ((s.draft_history.getD []).getLastD ⟨"", ""⟩).content,
               file_path := "outputs/" ++ ("draft-" ++ env.now ++ ".txt"),
               target := "local", s3_bucket := none } ∧
      StorageService.save
          { content := ((s.draft_history.getD []).getLastD ⟨"", ""⟩).content,
            file_path := "outputs/" ++ ("draft-" ++ env.now ++ ".txt"),
            target := "local", s3_bucket := none } =
        StorageAction.localWrite
          ("outputs/" ++ ("draft-" ++ env.now ++ ".txt"))
          ((s.draft_history.getD []).getLastD ⟨"", ""⟩).content := by
  constructor
  · unfold save_draft
    simp only []
    rw [if_neg (by simp [h])]
    split
    all_goals rfl
  · rfl

/-- Witness for the amended C4 at the concrete one-draft state. -/
theorem save_draft_call_spec_witness :
    (save_draft envStub stS3Draft).2 =
      some { content :=
               ((stS3Draft.draft_history.getD []).getLastD ⟨"", ""⟩).content,
             file_path := "outputs/" ++ ("draft-" ++ envStub.now ++ ".txt"),
             target := "local", s3_bucket := none } :=
  (save_draft_call_spec envStub stS3Draft rfl).1

/-! ## C6: parse_input path heuristic and the two specified scenarios -/

def stTabPath : GraphState :=
  { stBase with original_email := some "a\tb.pdf" }

/-- Counterexample to C6 as stated: the input `"a\tb.pdf"` contains
whitespace (a tab), so per the claim it must not be treated as a path
candidate; but the code only excludes the space character, treats it as
a `.pdf` path, touches the file system and reports `File not found`. -/
theorem parse_input_whitespace_counterexample :
    (parse_input envStub stTabPath).error_message =
        some "File not found: a\tb.pdf" ∧
      ("a\tb.pdf".toList.any isPySpace) = true :=
  ⟨rfl, by decide⟩

/-- C6 (amended): a trimmed input (after stripping a leading `load `
command) is treated as a path candidate only if it contains a period and
no space character (U+0020) — other whitespace such as a tab does not
disqualify it — and only a `.pdf` extension triggers file-system
interaction (otherwise the trimmed input passes through unchanged as
content, independent of the file system); given `"report.pdf"` with no
such file, errorMessage becomes `"File not found: report.pdf"`; given
`"load report.pdf"` with the file present and extraction returning
`"BODY"`, originalEmail becomes `"BODY"` and emailPath
`"report.pdf"`. -/
theorem parse_input_spec (env : Env) (s : GraphState) :
    (pyStrip (s.original_email.getD "") ≠ "" →
      isPdfPathCandidate
          (loadCandidate (pyStrip (s.original_email.getD ""))) = false →
      parse_input env s =
        { s with
            original_email := some (pyStrip (s.original_email.getD "")) }) ∧
    (s.original_email = some "report.pdf" →
      env.fileExists "report.pdf" = false →
      parse_input env s =
        { s with
            original_email := some "report.pdf",
            error_message := some "File not found: report.pdf" }) ∧
    (s.original_email = some "load report.pdf" →
      env.fileExists "report.pdf" = true →
      env.extractPdf "report.pdf" = Except.ok "BODY" →
      parse_input env s =
        { s with
            original_email := some "BODY",
            email_path := some "report.pdf" }) := by
  refine ⟨?_, ?_, ?_⟩
  · intro h1 h2
    unfold parse_input
    simp only []
    rw [if_neg h1, if_neg (by simp [h2])]
  · intro hoe hfe
    have e0 : pyStrip ((some "report.pdf").getD "") = "report.pdf" := rfl
    have e3 : isPdfPathCandidate (loadCandidate "report.pdf") = true := rfl
    unfold parse_input
    simp only [hoe, e0]
    rw [if_neg (by decide : ¬ ("report.pdf" = "")), if_pos e3,
      if_pos (show ¬ env.fileExists (loadCandidate "report.pdf") = true by
        simp [show loadCandidate "report.pdf" = "report.pdf" from rfl, hfe]),
      show loadCandidate "report.pdf" = "report.pdf" from rfl]
    rfl
  · intro hoe hfe hex
    have e0 : pyStrip ((some "load report.pdf").getD "") =
        "load report.pdf" := rfl
    have e2 : loadCandidate "load report.pdf" = "report.pdf" := rfl
    have e3 : isPdfPathCandidate (loadCandidate "load report.pdf") =
        true := rfl
    unfold parse_input
    simp only [hoe, e0]
    rw [if_neg (by decide : ¬ ("load report.pdf" = "")), if_pos e3,
      if_neg (show ¬ ¬ env.fileExists
          (loadCandidate "load report.pdf") = true by simp [e2, hfe])]
    rw [e2, hex]

/-- Witness for the amended C6: the missing-file scenario evaluated at
the stub environment (whose file system is empty). -/
theorem parse_input_spec_witness :
    parse_input envStub { stBase with original_email := some "report.pdf" } =
      { stBase with
          original_email := some "report.pdf",
          error_message := some "File not found: report.pdf" } :=
  (parse_input_spec envStub _).2.1 rfl rfl

/-! ## C5: which steps write the intent field -/

theorem route_by_intent_cases (s : GraphState) :
    route_by_intent s = "parse_input" ∨ route_by_intent s = "refine_draft" ∨
    route_by_intent s = "show_info" ∨ route_by_intent s = "save_draft" ∨
    route_by_intent s = "reset_session" ∨
    route_by_intent s = "handle_unclear" := by
  unfold route_by_intent
  split <;> simp

theorem parse_input_preserves_intent (env : Env) (s : GraphState) :
    (parse_input env s).intent = s.intent := by
  unfold parse_input
  simp only []
  repeat' split
  all_goals rfl

theorem extract_and_summarize_preserves_intent (env : Env) (s : GraphState) :
    (extract_and_summarize env s).intent = s.intent := by
  unfold extract_and_summarize
  simp only []
  repeat' split
  all_goals rfl

theorem ask_for_tone_preserves_intent (env : Env) (s : GraphState) :
    (ask_for_tone env s).intent = s.intent := by
  unfold ask_for_tone
  repeat' split
  all_goals rfl

theorem generate_initial_draft_preserves_intent (env : Env) (s : GraphState) :
    (generate_initial_draft env s).intent = s.intent := by
  unfold generate_initial_draft
  simp only []
  repeat' split
  all_goals rfl

theorem refine_draft_preserves_intent (env : Env) (s : GraphState) :
    (refine_draft env s).intent = s.intent := by
  unfold refine_draft
  simp only []
  repeat' split
  all_goals rfl

theorem save_draft_preserves_intent (env : Env) (s : GraphState) :
    ((save_draft env s).1).intent = s.intent := by
  unfold save_draft
  simp only []
  repeat' split
  all_goals rfl

theorem handle_error_preserves_intent (s : GraphState) :
    (handle_error s).intent = s.intent := by
  unfold handle_error
  split
  all_goals rfl

theorem runParseChain_preserves_intent (env : Env) (s : GraphState) :
    (runParseChain env s).intent = s.intent := by
  unfold runParseChain
  simp only []
  repeat' split
  all_goals simp [handle_error_preserves_intent, parse_input_preserves_intent,
    extract_and_summarize_preserves_intent, ask_for_tone_preserves_intent,
    generate_initial_draft_preserves_intent]

/-- Counterexample to C5 as stated: when the classifier answers
`handle_idle_chat`, the router writes intent = handle_idle_chat, but the
dispatch falls to handle_unclear, which performs a second write setting
intent = unclear — so the final intent differs from the router's single
write. -/
theorem intent_write_counterexample :
    ((route_action envIdle stBase).1).intent = some "handle_idle_chat" ∧
    (run_turn envIdle stBase).map GraphState.intent =
        Except.ok (some "unclear") ∧
    some "handle_idle_chat" ≠ some "unclear" :=
  ⟨rfl, rfl, by decide⟩

/-- C5 (amended): the router's write of `intent` is the only one on the
branches other than HandleUnclear and ResetSession, so there the final
state's intent equals the router-written intent; HandleUnclear performs
a second write (to unclear), and ResetSession clears intent to null as
part of the state rebuild. -/
theorem intent_write_discipline (env : Env) (s0 s2 : GraphState) :
    (route_by_intent ((route_action env s0).1) ≠ "handle_unclear" →
      route_by_intent ((route_action env s0).1) ≠ "reset_session" →
      ∃ t, run_turn env s0 = Except.ok t ∧
        t.intent = ((route_action env s0).1).intent) ∧
    (handle_unclear s2).intent = some "unclear" ∧
    (∀ t, reset_session s2 = Except.ok t → t.intent = none) := by
  refine ⟨?_, rfl, ?_⟩
  · intro h1 h2
    rcases route_by_intent_cases ((route_action env s0).1) with
      h | h | h | h | h | h
    · exact ⟨_, by unfold run_turn; simp only []; rw [h]; rfl,
        runParseChain_preserves_intent env _⟩
    · refine ⟨_, by unfold run_turn; simp only []; rw [h]; rfl, ?_⟩
      split
      · rw [handle_error_preserves_intent, refine_draft_preserves_intent]
      · rw [refine_draft_preserves_intent]
    · exact ⟨_, by unfold run_turn; simp only []; rw [h]; rfl, rfl⟩
    · exact ⟨_, by unfold run_turn; simp only []; rw [h]; rfl, save_draft_preserves_intent env _⟩
    · exact absurd h h2
    · exact absurd h h1
  · intro t ht
    unfold reset_session at ht
    cases hs : s2.session_id with
    | none => rw [hs] at ht; cases ht
    | some sid => rw [hs] at ht; cases ht; rfl

/-- Witness for the amended C5: under the all-success environment the
turn dispatches to the ParseInput chain and the final intent is the
router's `process_new_email`. -/
theorem intent_write_discipline_witness :
    ∃ t, run_turn envProc stBase = Except.ok t ∧
      t.intent = ((route_action envProc stBase).1).intent :=
  (intent_write_discipline envProc stBase stBase).1 (by decide) (by decide)

/-! ## C1: where errorMessage survives to the end of a turn -/

/-- Counterexample to C1 as stated: a routing failure sets errorMessage,
the turn dispatches to handle_unclear (which has a direct edge to END,
with no error check), and the returned state still carries the error —
it is not cleared before the turn ends. -/
theorem turn_error_persists_counterexample :
    (run_turn envStub stBase).map GraphState.error_message =
        Except.ok (some "Error during intent routing: boom") ∧
    some "Error during intent routing: boom" ≠ (none : Option String) :=
  ⟨rfl, by decide⟩

/-- C1 (amended): the returned state's errorMessage is guaranteed
cleared only on the branches wired through the error-checking edges —
the ParseInput chain and RefineDraft — where the turn always ends with a
falsy errorMessage; errors set by the router (dispatched to
HandleUnclear) or by the terminal nodes with a direct edge to END
(ShowInfo, SaveDraft, HandleUnclear) persist into the returned state. -/
theorem turn_error_cleared_on_checked_branches (env : Env) (s0 : GraphState)
    (h : route_by_intent ((route_action env s0).1) = "parse_input" ∨
         route_by_intent ((route_action env s0).1) = "refine_draft") :
    ∃ t, run_turn env s0 = Except.ok t ∧ check_for_errors t = false := by
  rcases h with h | h
  · exact ⟨_, by unfold run_turn; simp only []; rw [h]; rfl, runParseChain_no_error env _⟩
  · refine ⟨_, by unfold run_turn; simp only []; rw [h]; rfl, ?_⟩
    split
    · exact check_for_errors_handle_error _
    · next hh => simpa using hh

/-- Witness for the amended C1: the all-success environment dispatches
to the ParseInput chain and the turn ends with no error set. -/
theorem turn_error_cleared_on_checked_branches_witness :
    ∃ t, run_turn envProc stBase = Except.ok t ∧
      check_for_errors t = false :=
  turn_error_cleared_on_checked_branches envProc stBase (Or.inl (by decide))

end EAssistant
